import Mathlib

/-
Verification of the OAuth access-token lifecycle of the Spotify-integrated
music player. The embedded code is the NextAuth configuration module
(src/unnamed/part_013): the jwt callback, the session callback and the
refreshAccessToken helper, with the JWT/Session field shapes taken from the
type augmentation file (src/unnamed/part_001) and the derived
session-expired view taken from the home pages (src/unnamed/part_009 and
part_010). Time is epoch milliseconds as a natural number; the network
exchange performed by refreshAccessToken is abstracted as an explicit
outcome parameter, and the jwt callback additionally reports whether it
invoked refreshAccessToken, which is the only place a network call happens.
-/

namespace SpotifyAuth

/-- A user record as stored on the JWT (field user of the augmented JWT in
part_001). -/
structure User where
  id : String
  name : Option String
  email : Option String
  image : Option String
deriving DecidableEq

/-- The NextAuth JWT with the Spotify fields added by the module
augmentation in part_001. All fields are optional there; accessTokenExpires
is epoch milliseconds. -/
structure JWT where
  accessToken : Option String
  refreshToken : Option String
  accessTokenExpires : Option Nat
  user : Option User
  error : Option String
deriving DecidableEq

/-- The provider account object the jwt callback receives on initial
sign-in; expires_at is an absolute expiry in epoch seconds and may be
absent. -/
structure Account where
  access_token : Option String
  refresh_token : Option String
  expires_at : Option Nat
deriving DecidableEq

/-- Body of a successful token-refresh exchange response (the refreshedTokens
object in refreshAccessToken); refresh_token may be omitted by the
provider. -/
structure RefreshedTokens where
  access_token : String
  expires_in : Nat
  refresh_token : Option String
deriving DecidableEq

/-- The distinct ways the refresh exchange can fail. authRejected is an
auth-layer rejection by the provider (response not ok, e.g. invalid_grant);
serverError is a provider 5xx (also response not ok); networkError is a
thrown fetch error or timeout. In the code all three reach the same catch
block. -/
inductive ExchangeFailure where
  | authRejected
  | serverError
  | networkError
deriving DecidableEq

/-- Outcome of the network exchange inside refreshAccessToken, passed as an
explicit parameter to keep the embedded function pure. -/
inductive ExchangeOutcome where
  | ok (tokens : RefreshedTokens)
  | fail (f : ExchangeFailure)
deriving DecidableEq

/-- JavaScript truthiness of an optional number: undefined and 0 are
falsy, every other natural is truthy. -/
def truthyNat : Option Nat → Bool
  | none => false
  | some n => n != 0

/-- Embedding of refreshAccessToken (part_013 lines 63-101). On a
successful exchange it returns the spread of the old token with the new
access_token, accessTokenExpires = Date.now() + expires_in * 1000, and
refreshToken = refreshedTokens.refresh_token ?? token.refreshToken. Any
failure (response not ok, which throws the body, or a thrown fetch error)
lands in the catch block, which returns the spread of the old token with
error set to the single string RefreshAccessTokenError. -/
def refreshAccessToken (token : JWT) (now : Nat) (outcome : ExchangeOutcome) : JWT :=
  match outcome with
  | .ok r =>
      { token with
        accessToken := some r.access_token
        accessTokenExpires := some (now + r.expires_in * 1000)
        refreshToken :=
          match r.refresh_token with
          | some s => some s
          | none => token.refreshToken }
  | .fail _ =>
      { token with error := some "RefreshAccessTokenError" }

/-- Embedding of the jwt callback (part_013 lines 28-47). On initial
sign-in (account and user both present) it stores the account material,
with accessTokenExpires = account.expires_at ? account.expires_at * 1000 : 0.
Otherwise it returns the previous token when
token.accessTokenExpires && Date.now() < token.accessTokenExpires, and
falls through to refreshAccessToken when not. The Bool in the result
records whether refreshAccessToken was invoked (the only network call). -/
def jwtCallback (token : JWT) (account : Option Account) (user : Option User)
    (now : Nat) (outcome : ExchangeOutcome) : JWT × Bool :=
  match account, user with
  | some acct, some u =>
      ({ token with
          accessToken := acct.access_token
          refreshToken := acct.refresh_token
          accessTokenExpires :=
            some (if truthyNat acct.expires_at then acct.expires_at.getD 0 * 1000 else 0)
          user := some u }, false)
  | _, _ =>
      if truthyNat token.accessTokenExpires
          && decide (now < token.accessTokenExpires.getD 0) then
        (token, false)
      else
        (refreshAccessToken token now outcome, true)

/-- The client-visible session object with the fields the session callback
writes (augmented Session in part_001). -/
structure Session where
  user : Option User
  accessToken : Option String
  error : Option String
deriving DecidableEq

/-- Embedding of the session callback (part_013 lines 48-55): copies user,
accessToken and error from the JWT into the session only when token.user is
present, else returns the session unchanged. -/
def sessionCallback (session : Session) (token : JWT) : Session :=
  match token.user with
  | some u =>
      { session with user := some u, accessToken := token.accessToken, error := token.error }
  | none => session

/-- Derived client state from the home pages (part_009 line 104, part_010
line 125): the page renders the Authentication Expired prompt exactly when
session.error equals the string RefreshAccessTokenError. -/
def isSessionExpired (s : Session) : Bool :=
  s.error == some "RefreshAccessTokenError"

/-- Concurrency model for N callers racing the refresh window: each caller
reads the same stored token snapshot before any write lands and runs the
jwt callback on it; this counts how many of the N invocations perform a
refresh exchange. -/
def concurrentRefreshInvocations (t : JWT) (now : Nat) (o : ExchangeOutcome)
    (n : Nat) : Nat :=
  ((List.range n).filter (fun _ => (jwtCallback t none none now o).2)).length

/-- A concrete signed-in credential, already past its expiry instant, used
as the witness input for the transient-failure behaviour. -/
def tC6 : JWT :=
  { accessToken := some "A1", refreshToken := some "R1",
    accessTokenExpires := some 1000,
    user := some { id := "u1", name := none, email := none, image := none },
    error := none }

/-- Helper: a non-sign-in jwt invocation on a token whose expiry (taking the
falsy values undefined and 0 as expiry 0) is at or before now always invokes
refreshAccessToken. -/
theorem jwt_refreshes_when_expired (t : JWT) (now : Nat) (o : ExchangeOutcome)
    (hexp : t.accessTokenExpires.getD 0 ≤ now) :
    jwtCallback t none none now o = (refreshAccessToken t now o, true) := by
  cases h : t.accessTokenExpires with
  | none => simp [jwtCallback, truthyNat, h]
  | some e =>
      rw [h] at hexp
      simp only [Option.getD_some] at hexp
      simp [jwtCallback, truthyNat, h, Nat.not_lt.mpr hexp]

/-- Helper: refreshAccessToken never clears an existing
RefreshAccessTokenError flag, whatever the exchange outcome. -/
theorem refresh_keeps_error (t : JWT) (now : Nat) (o : ExchangeOutcome)
    (herr : t.error = some "RefreshAccessTokenError") :
    (refreshAccessToken t now o).error = some "RefreshAccessTokenError" := by
  cases o with
  | ok r => simpa [refreshAccessToken] using herr
  | fail f => simp [refreshAccessToken]

/-- C3: for every token and every successful refresh-exchange response that
omits the refresh_token field, the updated credential keeps the previously
stored refreshToken unchanged. -/
theorem C3_refresh_preserves_refreshToken (t : JWT) (now : Nat)
    (r : RefreshedTokens) (h : r.refresh_token = none) :
    (refreshAccessToken t now (.ok r)).refreshToken = t.refreshToken := by
  simp [refreshAccessToken, h]

/-- C3 witness: a concrete expired token refreshed by a response without a
refresh_token keeps refreshToken R1. -/
theorem C3_refresh_preserves_refreshToken_witness :
    (refreshAccessToken
      { accessToken := some "A1", refreshToken := some "R1",
        accessTokenExpires := some 1000, user := none, error := none }
      2000
      (.ok { access_token := "A2", expires_in := 3600, refresh_token := none })).refreshToken
      = some "R1" :=
  C3_refresh_preserves_refreshToken
    { accessToken := some "A1", refreshToken := some "R1",
      accessTokenExpires := some 1000, user := none, error := none }
    2000
    { access_token := "A2", expires_in := 3600, refresh_token := none }
    rfl

/-- C4 counterexample: an auth-layer rejection and a transient network
error produce identical results for a concrete token at a concrete instant,
so the caller cannot distinguish the two failure categories; the code does
not type its failure outcome in two categories. -/
theorem C4_counterexample :
    refreshAccessToken
      { accessToken := some "A1", refreshToken := some "R1",
        accessTokenExpires := some 1000, user := none, error := none }
      2000 (.fail .authRejected)
    = refreshAccessToken
      { accessToken := some "A1", refreshToken := some "R1",
        accessTokenExpires := some 1000, user := none, error := none }
      2000 (.fail .networkError) := rfl

/-- C4 amended: every refresh failure, whether an auth-layer rejection, a
provider 5xx or a network error, yields the same single undifferentiated
result, the old token with error set to the string RefreshAccessTokenError;
no terminal-versus-transient distinction is exposed to the caller. -/
theorem C4_single_undifferentiated_error (t : JWT) (now : Nat)
    (f : ExchangeFailure) :
    refreshAccessToken t now (.fail f)
      = { t with error := some "RefreshAccessTokenError" } := by
  cases f <;> rfl

/-- C5 counterexample: after a refresh rejected by the provider auth layer,
the stored credential still carries both the old access token A1 and the
old refresh token R1; the sensitive fields are not cleared. -/
theorem C5_counterexample :
    (refreshAccessToken
      { accessToken := some "A1", refreshToken := some "R1",
        accessTokenExpires := some 1000, user := none, error := none }
      2000 (.fail .authRejected)).accessToken = some "A1"
    ∧ (refreshAccessToken
      { accessToken := some "A1", refreshToken := some "R1",
        accessTokenExpires := some 1000, user := none, error := none }
      2000 (.fail .authRejected)).refreshToken = some "R1" :=
  ⟨rfl, rfl⟩

/-- C5 amended: on a refresh failure the code sets the error flag to
RefreshAccessTokenError but leaves accessToken, refreshToken and
accessTokenExpires exactly as they were; nothing is cleared and no distinct
SessionExpired failure is raised. -/
theorem C5_error_set_fields_kept (t : JWT) (now : Nat) (f : ExchangeFailure) :
    (refreshAccessToken t now (.fail f)).error = some "RefreshAccessTokenError"
    ∧ (refreshAccessToken t now (.fail f)).accessToken = t.accessToken
    ∧ (refreshAccessToken t now (.fail f)).refreshToken = t.refreshToken
    ∧ (refreshAccessToken t now (.fail f)).accessTokenExpires = t.accessTokenExpires := by
  cases f <;> exact ⟨rfl, rfl, rfl, rfl⟩

/-- C1 counterexample: a stored credential expiring 30 seconds after now
(well within the claimed 60-second safety margin) is returned unchanged
with no refresh invocation, where the claim requires a refresh; the code
compares now against expiresAt with no safety margin. -/
theorem C1_counterexample :
    jwtCallback
      { accessToken := some "A1", refreshToken := some "R1",
        accessTokenExpires := some 1000000, user := none, error := none }
      none none 970000 (.fail .networkError)
    = ({ accessToken := some "A1", refreshToken := some "R1",
         accessTokenExpires := some 1000000, user := none, error := none },
       false) := rfl

/-- C1 amended: the code uses no safety margin: on a non-sign-in jwt
invocation with a stored nonzero expiry, the stored token is returned
unchanged with no refresh exchange exactly when now is strictly before
expiresAt, and refreshAccessToken is invoked on the stored token exactly
when expiresAt is at or before now. -/
theorem C1_no_margin_expiry_check (t : JWT) (now e : Nat)
    (o : ExchangeOutcome) (he : t.accessTokenExpires = some e) (hnz : e ≠ 0) :
    (now < e → jwtCallback t none none now o = (t, false))
    ∧ (e ≤ now → jwtCallback t none none now o = (refreshAccessToken t now o, true)) := by
  constructor
  · intro hlt
    simp [jwtCallback, truthyNat, he, hnz, hlt]
  · intro hle
    simp [jwtCallback, truthyNat, he, hnz, Nat.not_lt.mpr hle]

/-- C1 amended witness: at now 500 against expiry 1000000 the token is
returned unchanged and no refresh happens; symmetrically the expired case
applies at the same expiry. -/
theorem C1_no_margin_expiry_check_witness :
    (500 < 1000000 →
      jwtCallback
        { accessToken := some "A1", refreshToken := some "R1",
          accessTokenExpires := some 1000000, user := none, error := none }
        none none 500 (.fail .networkError)
      = ({ accessToken := some "A1", refreshToken := some "R1",
           accessTokenExpires := some 1000000, user := none, error := none },
         false))
    ∧ (1000000 ≤ 500 →
      jwtCallback
        { accessToken := some "A1", refreshToken := some "R1",
          accessTokenExpires := some 1000000, user := none, error := none }
        none none 500 (.fail .networkError)
      = (refreshAccessToken
          { accessToken := some "A1", refreshToken := some "R1",
            accessTokenExpires := some 1000000, user := none, error := none }
          500 (.fail .networkError), true)) :=
  C1_no_margin_expiry_check
    { accessToken := some "A1", refreshToken := some "R1",
      accessTokenExpires := some 1000000, user := none, error := none }
    500 1000000 (.fail .networkError) rfl (by decide)

/-- C2 counterexample: a token already carrying the refresh-failure error
flag and an expired expiry is not terminal: the next non-sign-in jwt
invocation performs another refresh exchange (the Bool records the network
call), where the claim requires failing with zero network calls. -/
theorem C2_counterexample :
    (jwtCallback
      { accessToken := some "A1", refreshToken := some "R1",
        accessTokenExpires := some 1000, user := none,
        error := some "RefreshAccessTokenError" }
      none none 2000 (.fail .networkError)).2 = true := rfl

/-- C2 amended: the error flag is not terminal: on every subsequent
non-sign-in jwt invocation whose stored expiry is at or before now, the
code attempts another refresh exchange, and whatever that exchange returns
the error flag RefreshAccessTokenError persists on the resulting token
(even a successful refresh does not clear it). -/
theorem C2_error_not_terminal (t : JWT) (now : Nat) (o : ExchangeOutcome)
    (herr : t.error = some "RefreshAccessTokenError")
    (hexp : t.accessTokenExpires.getD 0 ≤ now) :
    (jwtCallback t none none now o).2 = true
    ∧ ((jwtCallback t none none now o).1).error = some "RefreshAccessTokenError" := by
  rw [jwt_refreshes_when_expired t now o hexp]
  exact ⟨rfl, refresh_keeps_error t now o herr⟩

/-- C2 amended witness: a concrete errored, expired token retries the
refresh and keeps the error flag even though the retried exchange
succeeds. -/
theorem C2_error_not_terminal_witness :
    (jwtCallback
      { accessToken := some "A1", refreshToken := some "R1",
        accessTokenExpires := some 1000, user := none,
        error := some "RefreshAccessTokenError" }
      none none 2000
      (.ok { access_token := "A2", expires_in := 3600, refresh_token := none })).2 = true
    ∧ ((jwtCallback
      { accessToken := some "A1", refreshToken := some "R1",
        accessTokenExpires := some 1000, user := none,
        error := some "RefreshAccessTokenError" }
      none none 2000
      (.ok { access_token := "A2", expires_in := 3600, refresh_token := none })).1).error
      = some "RefreshAccessTokenError" :=
  C2_error_not_terminal
    { accessToken := some "A1", refreshToken := some "R1",
      accessTokenExpires := some 1000, user := none,
      error := some "RefreshAccessTokenError" }
    2000
    (.ok { access_token := "A2", expires_in := 3600, refresh_token := none })
    rfl (by decide)

/-- C6 counterexample: a transient network failure during refresh does not
leave the derived state unexpired: the resulting token carries the single
error flag, the session callback copies it to the session, and the home
page treats it as session-expired, so isSessionExpired is true where the
claim says it remains false. -/
theorem C6_counterexample :
    isSessionExpired
      (sessionCallback
        { user := none, accessToken := none, error := none }
        (refreshAccessToken
          { accessToken := some "A1", refreshToken := some "R1",
            accessTokenExpires := some 1000,
            user := some { id := "u1", name := none, email := none, image := none },
            error := none }
          2000 (.fail .networkError))) = true := rfl

/-- C6 amended: on a transient refresh failure the credential fields
(accessToken, refreshToken, accessTokenExpires) are left untouched and a
later non-sign-in jwt invocation does retry the refresh, but the code marks
the token with the same error flag as any other failure, so the derived
client state shows the session as expired (isSessionExpired true) rather
than remaining false. -/
theorem C6_transient_failure_marks_expired (t : JWT) (s : Session)
    (now later : Nat) (o : ExchangeOutcome)
    (hu : t.user.isSome = true) (hexp : t.accessTokenExpires.getD 0 ≤ later) :
    (refreshAccessToken t now (.fail .networkError)).accessToken = t.accessToken
    ∧ (refreshAccessToken t now (.fail .networkError)).refreshToken = t.refreshToken
    ∧ (refreshAccessToken t now (.fail .networkError)).accessTokenExpires
        = t.accessTokenExpires
    ∧ isSessionExpired
        (sessionCallback s (refreshAccessToken t now (.fail .networkError))) = true
    ∧ (jwtCallback (refreshAccessToken t now (.fail .networkError))
        none none later o).2 = true := by
  refine ⟨rfl, rfl, rfl, ?_, ?_⟩
  · cases h : t.user with
    | none => rw [h] at hu; simp at hu
    | some u => simp [refreshAccessToken, sessionCallback, isSessionExpired, h]
  · have : (refreshAccessToken t now (.fail .networkError)).accessTokenExpires.getD 0
        ≤ later := hexp
    rw [jwt_refreshes_when_expired _ later o this]

/-- C6 amended witness: concrete expired credential, transient failure at
now 2000, retry observed at later 3000. -/
theorem C6_transient_failure_marks_expired_witness :
    (refreshAccessToken tC6 2000 (.fail .networkError)).accessToken = tC6.accessToken
    ∧ (refreshAccessToken tC6 2000 (.fail .networkError)).refreshToken = tC6.refreshToken
    ∧ (refreshAccessToken tC6 2000 (.fail .networkError)).accessTokenExpires
        = tC6.accessTokenExpires
    ∧ isSessionExpired
        (sessionCallback { user := none, accessToken := none, error := none }
          (refreshAccessToken tC6 2000 (.fail .networkError))) = true
    ∧ (jwtCallback (refreshAccessToken tC6 2000 (.fail .networkError))
        none none 3000 (.fail .networkError)).2 = true :=
  C6_transient_failure_marks_expired tC6
    { user := none, accessToken := none, error := none }
    2000 3000 (.fail .networkError) rfl (by decide)

/-- C7: a successful refresh at instant now with lifetime expires_in seconds
stores expiresAt = now + expires_in * 1000 milliseconds, and an initial
sign-in whose account reports absolute expiry expires_at seconds stores
expiresAt = expires_at * 1000 milliseconds. -/
theorem C7_expiry_arithmetic (t : JWT) (a : Account) (u : User)
    (now : Nat) (o : ExchangeOutcome) (r : RefreshedTokens) (s : Nat)
    (hs : a.expires_at = some s) :
    (refreshAccessToken t now (.ok r)).accessTokenExpires
      = some (now + r.expires_in * 1000)
    ∧ ((jwtCallback t (some a) (some u) now o).1).accessTokenExpires
      = some (s * 1000) := by
  refine ⟨rfl, ?_⟩
  by_cases h0 : s = 0
  · subst h0
    simp [jwtCallback, truthyNat, hs]
  · simp [jwtCallback, truthyNat, hs, h0]

/-- C7 witness: refresh at now 2000 with expires_in 3600 yields expiry
2000 + 3600000; sign-in with expires_at 1700000000 yields expiry
1700000000000. -/
theorem C7_expiry_arithmetic_witness :
    (refreshAccessToken
      { accessToken := some "A1", refreshToken := some "R1",
        accessTokenExpires := some 1000, user := none, error := none }
      2000
      (.ok { access_token := "A2", expires_in := 3600, refresh_token := none })).accessTokenExpires
      = some (2000 + 3600 * 1000)
    ∧ ((jwtCallback
      { accessToken := none, refreshToken := none,
        accessTokenExpires := none, user := none, error := none }
      (some { access_token := some "A1", refresh_token := some "R1",
              expires_at := some 1700000000 })
      (some { id := "u1", name := none, email := none, image := none })
      2000 (.fail .networkError)).1).accessTokenExpires
      = some (1700000000 * 1000) :=
  C7_expiry_arithmetic
    { accessToken := none, refreshToken := none,
      accessTokenExpires := none, user := none, error := none }
    { access_token := some "A1", refresh_token := some "R1",
      expires_at := some 1700000000 }
    { id := "u1", name := none, email := none, image := none }
    2000 (.fail .networkError)
    { access_token := "A2", expires_in := 3600, refresh_token := none }
    1700000000 rfl

/-- C8 counterexample: two callers racing the same expired stored token
each perform their own refresh exchange: the invocation count is 2, not
exactly one as the claim requires. -/
theorem C8_counterexample :
    concurrentRefreshInvocations
      { accessToken := some "A1", refreshToken := some "R1",
        accessTokenExpires := some 1000, user := none, error := none }
      2000 (.fail .networkError) 2 = 2
    ∧ concurrentRefreshInvocations
      { accessToken := some "A1", refreshToken := some "R1",
        accessTokenExpires := some 1000, user := none, error := none }
      2000 (.fail .networkError) 2 ≠ 1 := by
  exact ⟨rfl, by decide⟩

/-- C8 amended: the code has no single-flight mechanism: when N callers
each read the same expired stored token within the refresh window, every
one of the N jwt invocations performs its own refresh exchange, N exchanges
in total (each caller computes the same resulting token from its own
exchange). -/
theorem C8_no_single_flight (t : JWT) (now : Nat) (o : ExchangeOutcome)
    (n : Nat) (hexp : t.accessTokenExpires.getD 0 ≤ now) :
    concurrentRefreshInvocations t now o n = n := by
  have h := jwt_refreshes_when_expired t now o hexp
  simp [concurrentRefreshInvocations, h]

/-- C8 amended witness: two callers against a concrete expired token make
two exchanges. -/
theorem C8_no_single_flight_witness :
    concurrentRefreshInvocations
      { accessToken := some "A1", refreshToken := some "R1",
        accessTokenExpires := some 1000, user := none, error := none }
      2000 (.fail .networkError) 2 = 2 :=
  C8_no_single_flight
    { accessToken := some "A1", refreshToken := some "R1",
      accessTokenExpires := some 1000, user := none, error := none }
    2000 (.fail .networkError) 2 (by decide)

/-- C9: an initial sign-in whose account carries no expires_at stores
accessTokenExpires = 0, and because 0 is falsy in the expiry check, the
very next non-sign-in jwt invocation performs a refresh exchange instead of
returning the freshly minted access token. -/
theorem C9_missing_expires_at (t : JWT) (a : Account) (u : User)
    (now now2 : Nat) (o o2 : ExchangeOutcome) (h : a.expires_at = none) :
    ((jwtCallback t (some a) (some u) now o).1).accessTokenExpires = some 0
    ∧ (jwtCallback ((jwtCallback t (some a) (some u) now o).1)
        none none now2 o2).2 = true := by
  have h1 : ((jwtCallback t (some a) (some u) now o).1).accessTokenExpires = some 0 := by
    simp [jwtCallback, truthyNat, h]
  refine ⟨h1, ?_⟩
  rw [jwt_refreshes_when_expired _ now2 o2 (by rw [h1]; simp)]

/-- C9 witness: sign-in with an account lacking expires_at, then an
immediate fresh access at now 1, triggers a refresh. -/
theorem C9_missing_expires_at_witness :
    ((jwtCallback
      { accessToken := none, refreshToken := none,
        accessTokenExpires := none, user := none, error := none }
      (some { access_token := some "A1", refresh_token := some "R1",
              expires_at := none })
      (some { id := "u1", name := none, email := none, image := none })
      0 (.fail .networkError)).1).accessTokenExpires = some 0
    ∧ (jwtCallback ((jwtCallback
      { accessToken := none, refreshToken := none,
        accessTokenExpires := none, user := none, error := none }
      (some { access_token := some "A1", refresh_token := some "R1",
              expires_at := none })
      (some { id := "u1", name := none, email := none, image := none })
      0 (.fail .networkError)).1)
        none none 1 (.fail .networkError)).2 = true :=
  C9_missing_expires_at
    { accessToken := none, refreshToken := none,
      accessTokenExpires := none, user := none, error := none }
    { access_token := some "A1", refresh_token := some "R1", expires_at := none }
    { id := "u1", name := none, email := none, image := none }
    0 1 (.fail .networkError) (.fail .networkError) rfl

/-- C10: the session callback copies accessToken and error from the JWT
only when token.user is present; for a JWT lacking user the session is
returned unchanged, so a session that carried no accessToken and no error
still carries none, even when the JWT holds a valid access token. -/
theorem C10_session_requires_user (s : Session) (t : JWT)
    (hu : t.user = none) (ha : s.accessToken = none) (he : s.error = none) :
    sessionCallback s t = s
    ∧ (sessionCallback s t).accessToken = none
    ∧ (sessionCallback s t).error = none := by
  have h : sessionCallback s t = s := by simp [sessionCallback, hu]
  exact ⟨h, by rw [h]; exact ha, by rw [h]; exact he⟩

/-- C10 witness: a JWT holding a valid access token A1 but no user leaves
an empty session untouched. -/
theorem C10_session_requires_user_witness :
    sessionCallback { user := none, accessToken := none, error := none }
      { accessToken := some "A1", refreshToken := some "R1",
        accessTokenExpires := some 1000000, user := none, error := none }
    = { user := none, accessToken := none, error := none }
    ∧ (sessionCallback { user := none, accessToken := none, error := none }
      { accessToken := some "A1", refreshToken := some "R1",
        accessTokenExpires := some 1000000, user := none, error := none }).accessToken
      = none
    ∧ (sessionCallback { user := none, accessToken := none, error := none }
      { accessToken := some "A1", refreshToken := some "R1",
        accessTokenExpires := some 1000000, user := none, error := none }).error
      = none :=
  C10_session_requires_user
    { user := none, accessToken := none, error := none }
    { accessToken := some "A1", refreshToken := some "R1",
      accessTokenExpires := some 1000000, user := none, error := none }
    rfl rfl rfl

end SpotifyAuth
